import Mathlib

/-!
# Verification of the react-native-audio-pro playback core

Shallow embedding of the playback control layer of this repository:

* the TypeScript helpers in `src/utils.ts` (`isValidUrl`, `validateTrack`,
  `normalizeVolume`),
* the TypeScript command facade `AudioPro` (`play`, `stop`, `clear`, getters),
* the Kotlin `AudioProController` (engine-callback state machine:
  `emitState`, `emitNotice`, `onPlaybackStateChanged`, `onPositionDiscontinuity`,
  `onPlayerError`, `resetInternal`, `stop`, `clear`, `play`).

Numbers that are JS `number` / Kotlin `Float` are modelled as `Rat`;
positions and durations (Kotlin `Long`) are modelled as `Int`.
Real-time data (`flowLastStateEmittedTimeMs`, timer scheduling delays) is not
observable through any claim and is modelled only as the boolean
"progress timer running" flag.
-/

/-- A JavaScript value as seen by the `typeof`-based runtime checks in
`validateTrack`: either a string or some non-string value. -/
inductive JSVal where
  | str (s : String)
  | nonString
deriving DecidableEq, Repr

/-- The track object passed to `AudioPro.play` (`src/types.ts` shape used by
`validateTrack`): `id`, `url`, `title`, `artwork` required, `album`/`artist`
optional.  Fields are `JSVal` because the source guards against non-string
values with `typeof` checks. -/
structure AudioProTrack where
  id : JSVal
  url : JSVal
  title : JSVal
  artwork : JSVal
  album : Option JSVal := none
  artist : Option JSVal := none
deriving DecidableEq, Repr

/-- JS `String.prototype.trim`: strip whitespace from both ends of the
string (written over the character list so that it evaluates inside the
kernel). -/
def jsTrim (s : String) : String :=
  ⟨(((s.data.dropWhile Char.isWhitespace).reverse.dropWhile Char.isWhitespace).reverse)⟩

/-- `isValidUrl` from `src/utils.ts`: returns `false` only when the URL is
empty or whitespace; every other branch (supported scheme, known scheme,
non-standard path) returns `true` after at most logging. -/
def isValidUrl (url : String) : Bool :=
  if url = "" || jsTrim url = "" then false
  else true

/-- `validateTrack` from `src/utils.ts`.  The source is a sequence of guarded
early `return false`s; this conjunction preserves each check in order. -/
def validateTrack (track : AudioProTrack) : Bool :=
  -- 2. ID must be a non-empty string
  (match track.id with
   | .str s => !(jsTrim s = "")
   | .nonString => false) &&
  -- 3. URL must be a non-empty string and valid
  (match track.url with
   | .str s => !(jsTrim s = "") && isValidUrl s
   | .nonString => false) &&
  -- 4. Title must be a non-empty string
  (match track.title with
   | .str s => !(jsTrim s = "")
   | .nonString => false) &&
  -- 5. Artwork URL must be a non-empty string and valid
  (match track.artwork with
   | .str s => !(jsTrim s = "") && isValidUrl s
   | .nonString => false) &&
  -- 6. Optional album and artist must be strings if provided
  (match track.album with
   | none => true
   | some (.str _) => true
   | some .nonString => false) &&
  (match track.artist with
   | none => true
   | some (.str _) => true
   | some .nonString => false)

/-- JS `parseFloat(x.toFixed(2))` for a non-negative number: round to the
nearest multiple of 1/100, ties away from zero (hence, on the non-negative
clamped range used by `normalizeVolume`, ties up). -/
def toFixed2 (x : Rat) : Rat :=
  (⌊x * 100 + 1 / 2⌋ : Rat) / 100

/-- `normalizeVolume` from `src/utils.ts`. -/
def normalizeVolume (volume : Rat) : Rat :=
  -- Special case for 0 or very small values to avoid floating-point artifacts
  if volume = 0 || |volume| < 0.001 then 0
  -- Special case for values very close to 1 to avoid floating-point artifacts
  else if volume > 0.995 && volume ≤ 1 then 1
  else
    -- Clamp between 0 and 1
    let clampedVolume := max 0 (min 1 volume)
    -- Format to 2 decimal places and convert back to number
    toFixed2 clampedVolume

/-! ## The TypeScript command facade (`AudioPro` object)

The event payloads and engine commands are reified so that theorems can count
and order emissions.  `Emitted` mirrors the `{type, track, payload}` events of
the public vocabulary, restricted to the payload shapes the source builds. -/

namespace AudioProModule

def STATE_IDLE : String := "IDLE"
def STATE_STOPPED : String := "STOPPED"
def STATE_LOADING : String := "LOADING"
def STATE_PLAYING : String := "PLAYING"
def STATE_PAUSED : String := "PAUSED"
def STATE_ERROR : String := "ERROR"
def EVENT_TYPE_STATE_CHANGED : String := "STATE_CHANGED"
def EVENT_TYPE_TRACK_ENDED : String := "TRACK_ENDED"
def EVENT_TYPE_PROGRESS : String := "PROGRESS"
def EVENT_TYPE_SEEK_COMPLETE : String := "SEEK_COMPLETE"
def EVENT_TYPE_PLAYBACK_ERROR : String := "PLAYBACK_ERROR"
def TRIGGER_SOURCE_USER : String := "USER"
def TRIGGER_SOURCE_SYSTEM : String := "SYSTEM"

end AudioProModule

/-- The track map as the Kotlin controller sees it (`ReadableMap`): every
`getString` access yields an optional string. -/
structure KTrack where
  url : Option String := none
  title : Option String := none
  artist : Option String := none
  album : Option String := none
  artwork : Option String := none
deriving DecidableEq, Repr

/-- A `ReadableMap` built from a validated `AudioProTrack` as the native
bridge delivers it to the Kotlin side: string fields come through as
`some`, absent or non-string fields as `none`. -/
def toKTrack (t : AudioProTrack) : KTrack where
  url := match t.url with | .str s => some s | .nonString => none
  title := match t.title with | .str s => some s | .nonString => none
  artist := match t.artist with | some (.str s) => some s | _ => none
  album := match t.album with | some (.str s) => some s | _ => none
  artwork := match t.artwork with | .str s => some s | .nonString => none

/-- An event published to subscribers, `{type, track, payload}` with the
payload shapes actually built by the source (`emitState`, `emitNotice`,
`onPositionDiscontinuity`, `emitError` / the facade's error emissions). -/
inductive Emitted where
  /-- `STATE_CHANGED {state, position, duration}` -/
  | stateChanged (state : String) (position duration : Int) (track : Option KTrack)
  /-- `PROGRESS` / `TRACK_ENDED` `{position, duration}` -/
  | notice (eventType : String) (position duration : Int) (track : Option KTrack)
  /-- `SEEK_COMPLETE {position, duration, triggeredBy}` -/
  | seekComplete (position duration : Int) (triggeredBy : String) (track : Option KTrack)
  /-- `PLAYBACK_ERROR {error, errorCode}` -/
  | playbackError (error : String) (errorCode : Int) (track : Option KTrack)
deriving DecidableEq, Repr

/-- The engine-facing options object the facade builds for
`NativeAudioPro.play` (`{...configureOptions, ...options, playbackSpeed,
volume}`), restricted to the keys the modelled Kotlin side reads. -/
structure NativeOptions where
  autoPlay : Option Bool := none
  startTimeMs : Option Int := none
  playbackSpeed : Rat := 1
  volume : Rat := 1
deriving DecidableEq, Repr

/-- A call into the native module made by the TypeScript facade. -/
inductive NativeCall where
  | play (track : AudioProTrack) (options : NativeOptions)
  | pause
  | resume
  | stop
  | clear
  | seekTo (positionMs : Int)
deriving DecidableEq, Repr

/-- The slice of the internal (zustand) store the claims observe.  The store
itself lives in `src/internalStore.ts` (not part of the sources here); its
fields and setters are taken from how `src/utils.ts` and the facade use them. -/
structure StoreState where
  playerState : String := AudioProModule.STATE_IDLE
  position : Int := 0
  duration : Int := 0
  trackPlaying : Option AudioProTrack := none
  volume : Rat := 1
  playbackSpeed : Rat := 1
  error : Option String := none
deriving DecidableEq, Repr

/-- Per-`play`-call options (`AudioProPlayOptions`). -/
structure AudioProPlayOptions where
  autoPlay : Option Bool := none
  startTimeMs : Option Int := none
deriving DecidableEq, Repr

namespace AudioPro

/-- `AudioPro.play` from the facade: validates, on failure emits exactly one
`PLAYBACK_ERROR` (code `-1`, `track: null`) without touching store or engine;
on success clears the store error, sets the active track, discards
`startTimeMs` when `autoPlay === false`, and calls the native module. -/
def play (store : StoreState) (track : AudioProTrack) (options : AudioProPlayOptions) :
    StoreState × List Emitted × List NativeCall :=
  let resolvedTrack := track
  if validateTrack resolvedTrack = false then
    (store,
     [Emitted.playbackError "[react-native-audio-pro]: Invalid track provided to play()." (-1) none],
     [])
  else
    -- Clear errors and set track as playing
    let store := { store with trackPlaying := some resolvedTrack }
    let store := if store.error.isSome then { store with error := none } else store
    -- Clear startTimeMs if autoPlay is false
    let options :=
      if options.autoPlay = some false then { options with startTimeMs := none } else options
    -- Prepare options for native module
    let nativeOptions : NativeOptions :=
      { autoPlay := options.autoPlay
        startTimeMs := options.startTimeMs
        playbackSpeed := store.playbackSpeed
        volume := normalizeVolume store.volume }
    (store, [], [NativeCall.play resolvedTrack nativeOptions])

/-- `AudioPro.stop` from the facade: clears the store error and forwards to
the native module; the track reference is left untouched. -/
def stop (store : StoreState) : StoreState × List NativeCall :=
  let store := if store.error.isSome then { store with error := none } else store
  (store, [NativeCall.stop])

/-- `AudioPro.clear` from the facade: clears the store error, nulls the
active track, resets the store volume to `normalizeVolume(1.0)` and forwards
to the native module.  (It does not touch `playbackSpeed` itself.) -/
def clear (store : StoreState) : StoreState × List NativeCall :=
  let store := if store.error.isSome then { store with error := none } else store
  let store := { store with trackPlaying := none }
  let store := { store with volume := normalizeVolume 1 }
  (store, [NativeCall.clear])

/-- `AudioPro.getState`. -/
def getState (store : StoreState) : String := store.playerState

/-- `AudioPro.getPlayingTrack`. -/
def getPlayingTrack (store : StoreState) : Option AudioProTrack := store.trackPlaying

/-- `AudioPro.getVolume`. -/
def getVolume (store : StoreState) : Rat := store.volume

/-- `AudioPro.getPlaybackSpeed`. -/
def getPlaybackSpeed (store : StoreState) : Rat := store.playbackSpeed

end AudioPro

/-! ## The Kotlin `AudioProController` (engine-side state machine) -/

/-- A command sent to the media engine (`MediaBrowser`) or the service
layer by the controller. -/
inductive EngineCmd where
  | pause
  | play
  | stop
  | prepare
  | setMediaItem
  | seekTo (positionMs : Int)
  | setPlaybackSpeed (speed : Rat)
  | setVolume (volume : Rat)
  | release
  | destroyService
deriving DecidableEq, Repr

/-- Media3 `Player.DISCONTINUITY_REASON_SEEK`. -/
def DISCONTINUITY_REASON_SEEK : Int := 1

/-- Media3 `Player.DISCONTINUITY_REASON_SEEK_ADJUSTMENT`. -/
def DISCONTINUITY_REASON_SEEK_ADJUSTMENT : Int := 2

/-- The mutable fields of the Kotlin `AudioProController` object that the
claims observe.  `engineProgressHandler`/`engineProgressRunnable` collapse to
the boolean `progressTimerRunning`; `enginePlayerListener != null` is
`listenerAttached`; `enginerBrowser == null` after `release()` is
`engineReleased`.  `flowLastStateEmittedTimeMs` (wall-clock, never read) is
omitted. -/
structure ControllerState where
  activeTrack : Option KTrack := none
  activeVolume : Rat := 1
  activePlaybackSpeed : Rat := 1
  flowIsInErrorState : Bool := false
  flowLastEmittedState : String := ""
  flowPendingSeekPosition : Option Int := none
  progressTimerRunning : Bool := false
  listenerAttached : Bool := false
  engineReleased : Bool := false
deriving DecidableEq, Repr

/-- A snapshot of what the engine reports at a callback
(`currentPosition`, `duration`, `playWhenReady`, `isPlaying`). -/
structure EngineSnapshot where
  currentPosition : Int := 0
  duration : Int := 0
  playWhenReady : Bool := false
  isPlaying : Bool := false
deriving DecidableEq, Repr

/-- The `Player` playback states the `when` in `onPlaybackStateChanged`
matches on. -/
inductive PlayerPlaybackState where
  | buffering
  | ready
  | ended
  | idle
deriving DecidableEq, Repr

namespace AudioProController

/-- `emitState` from `AudioProController`: sanitizes negative
position/duration, then applies the three suppression guards in source
order (no `PAUSED` after `STOPPED`; no `STOPPED` while in error state; no
duplicate of the last emitted state) and otherwise emits one
`STATE_CHANGED` and records the state as last emitted. -/
def emitState (s : ControllerState) (state : String) (position duration : Int) :
    ControllerState × List Emitted :=
  let sanitizedPosition := if position < 0 then 0 else position
  let sanitizedDuration := if duration < 0 then 0 else duration
  -- Don't emit PAUSED if we've already emitted STOPPED (catch slow listener emit)
  if state = AudioProModule.STATE_PAUSED ∧
      s.flowLastEmittedState = AudioProModule.STATE_STOPPED then
    (s, [])
  -- Don't emit STOPPED if we're in an error state
  else if state = AudioProModule.STATE_STOPPED ∧ s.flowIsInErrorState = true then
    (s, [])
  -- Filter out duplicate state emissions
  else if state = s.flowLastEmittedState then
    (s, [])
  else
    ({ s with flowLastEmittedState := state },
     [Emitted.stateChanged state sanitizedPosition sanitizedDuration s.activeTrack])

/-- `emitNotice` from `AudioProController`: sanitizes negative values and
emits a `{position, duration}` payload event of the given type. -/
def emitNotice (s : ControllerState) (eventType : String) (position duration : Int) :
    Emitted :=
  -- Sanitize negative values
  let sanitizedPosition := if position < 0 then 0 else position
  let sanitizedDuration := if duration < 0 then 0 else duration
  Emitted.notice eventType sanitizedPosition sanitizedDuration s.activeTrack

/-- `emitError` from `AudioProController`: a `PLAYBACK_ERROR` event with no
state transition. -/
def emitError (s : ControllerState) (message : String) (code : Int) : Emitted :=
  Emitted.playbackError message code s.activeTrack

/-- `stopProgressTimer`. -/
def stopProgressTimer (s : ControllerState) : ControllerState :=
  { s with progressTimerRunning := false }

/-- `startProgressTimer` (stops any previous timer first; the periodic
`PROGRESS` emissions it schedules go through `emitNotice`). -/
def startProgressTimer (s : ControllerState) : ControllerState :=
  { stopProgressTimer s with progressTimerRunning := true }

/-- `prepareForNewPlayback`: pause the engine, stop the progress timer and
reset the pending-seek / error / last-emitted-state flow fields without
emitting anything. -/
def prepareForNewPlayback (s : ControllerState) : ControllerState × List EngineCmd :=
  let s := stopProgressTimer s
  let s := { s with
    flowPendingSeekPosition := none
    flowIsInErrorState := false
    flowLastEmittedState := "" }
  (s, [EngineCmd.pause])

/-- The parsed play options (Kotlin `PlaybackOptions`), restricted to the
fields the modelled behaviour reads. -/
structure PlaybackOptions where
  speed : Rat := 1
  volume : Rat := 1
  autoPlay : Bool := true
  startTimeMs : Option Int := none
deriving DecidableEq, Repr

/-- `extractPlaybackOptions`: defaulting of the options map
(`autoPlay` true, speed/volume 1.0 when absent) and application of
speed/volume to the controller fields. -/
def extractPlaybackOptions (s : ControllerState) (options : NativeOptions) :
    ControllerState × PlaybackOptions :=
  let speed := options.playbackSpeed
  let volume := options.volume
  let autoPlay := options.autoPlay.getD true
  -- Apply to controller state
  let s := { s with activePlaybackSpeed := speed, activeVolume := volume }
  (s, { speed := speed, volume := volume, autoPlay := autoPlay,
        startTimeMs := options.startTimeMs })

/-- `AudioProController.play`: extract options, prepare for new playback,
set the active track, record a pending seek for `startTimeMs` when
`autoPlay`, then (if the track has a URL) emit `LOADING`, hand the media
item to the engine and either start playback or emit `PAUSED` when
`autoPlay` is false. -/
def play (s : ControllerState) (track : KTrack) (options : NativeOptions) :
    ControllerState × List Emitted × List EngineCmd :=
  let (s, opts) := extractPlaybackOptions s options
  let (s, prepCmds) := prepareForNewPlayback s
  let s := { s with activeTrack := some track }
  -- If startTimeMs is provided and autoPlay is true, set pendingSeekPosition
  let s :=
    if opts.startTimeMs.isSome ∧ opts.autoPlay = true then
      { s with flowPendingSeekPosition := opts.startTimeMs }
    else s
  match track.url with
  | none => (s, [], prepCmds)
  | some _ =>
    let (s, loadingEvs) := emitState s AudioProModule.STATE_LOADING 0 0
    let engineCmds :=
      [EngineCmd.setMediaItem, EngineCmd.prepare,
       EngineCmd.setPlaybackSpeed opts.speed, EngineCmd.setVolume opts.volume]
    if opts.autoPlay then
      (s, loadingEvs, prepCmds ++ engineCmds ++ [EngineCmd.play])
    else
      let (s, pausedEvs) := emitState s AudioProModule.STATE_PAUSED 0 0
      (s, loadingEvs ++ pausedEvs, prepCmds ++ engineCmds)

/-- `AudioProController.stop`: reset the error flag and last-emitted-state
marker, stop the engine and seek it to 0, emit `STOPPED` at position 0 with
the last known duration (`duration.takeIf { it > 0 } ?: 0`), stop the
progress timer and cancel any pending seek.  The engine is not released and
the player listener stays attached. -/
def stop (s : ControllerState) (engineDuration : Int) :
    ControllerState × List Emitted × List EngineCmd :=
  -- Reset error state when explicitly stopping
  let s := { s with flowIsInErrorState := false }
  -- Reset last emitted state when stopping playback
  let s := { s with flowLastEmittedState := "" }
  let dur := if engineDuration > 0 then engineDuration else 0
  let (s, evs) := emitState s AudioProModule.STATE_STOPPED 0 dur
  let s := stopProgressTimer s
  -- Cancel any pending seek operations
  let s := { s with flowPendingSeekPosition := none }
  (s, evs, [EngineCmd.stop, EngineCmd.seekTo 0])

/-- `resetInternal`: the shared teardown used by `clear()` and the error
path.  Sets the error flag iff the final state is `ERROR`, clears the
last-emitted-state marker and the pending seek, stops and releases the
engine (detaching the listener), clears the active track, stops the
progress timer, resets speed and volume to 1.0, schedules service
destruction and finally emits the final state at position/duration 0. -/
def resetInternal (s : ControllerState) (finalState : String) :
    ControllerState × List Emitted × List EngineCmd :=
  -- Reset error state
  let s := { s with flowIsInErrorState := finalState = AudioProModule.STATE_ERROR }
  -- Reset last emitted state
  let s := { s with flowLastEmittedState := "" }
  -- Clear pending seek state
  let s := { s with flowPendingSeekPosition := none }
  -- Stop playback, detach listener, release player
  let s := { s with listenerAttached := false, engineReleased := true }
  -- Clear track and stop timers
  let s := { s with activeTrack := none }
  let s := stopProgressTimer s
  -- Reset playback settings
  let s := { s with activePlaybackSpeed := 1, activeVolume := 1 }
  -- Emit final state
  let (s, evs) := emitState s finalState 0 0
  (s, evs,
   [EngineCmd.stop, EngineCmd.release, EngineCmd.destroyService])

/-- `AudioProController.clear` = `resetInternal(STATE_IDLE)`. -/
def clear (s : ControllerState) : ControllerState × List Emitted × List EngineCmd :=
  resetInternal s AudioProModule.STATE_IDLE

/-- `onPlaybackStateChanged` from the attached `Player.Listener`, with the
engine-reported position/duration/`playWhenReady`/`isPlaying` taken as a
snapshot argument. -/
def onPlaybackStateChanged (s : ControllerState) (e : EngineSnapshot)
    (state : PlayerPlaybackState) : ControllerState × List Emitted × List EngineCmd :=
  let pos := e.currentPosition
  let dur := e.duration
  let isPlayIntended := e.playWhenReady
  let isActuallyPlaying := e.isPlaying
  match state with
  | .buffering =>
    if isPlayIntended then
      let (s, evs) := emitState s AudioProModule.STATE_LOADING pos dur
      (s, evs, [])
    else if s.flowLastEmittedState = AudioProModule.STATE_PLAYING then
      let (s, evs) := emitState s AudioProModule.STATE_PAUSED pos dur
      (s, evs, [])
    else
      -- BUFFERING with playIntended=false and last state not PLAYING: no emission
      (s, [], [])
  | .ready =>
    -- If there's a pending seek position, perform the seek now that the
    -- player is ready; pendingSeekPosition is cleared in onPositionDiscontinuity
    let seekCmds :=
      match s.flowPendingSeekPosition with
      | some seekPos => [EngineCmd.seekTo seekPos]
      | none => []
    if isActuallyPlaying then
      let (s, evs) := emitState s AudioProModule.STATE_PLAYING pos dur
      (startProgressTimer s, evs, seekCmds)
    else
      let (s, evs) := emitState s AudioProModule.STATE_PAUSED pos dur
      (stopProgressTimer s, evs, seekCmds)
  | .ended =>
    let s := stopProgressTimer s
    -- Reset error state and last emitted state
    let s := { s with flowIsInErrorState := false, flowLastEmittedState := "" }
    -- 1. Pause playback  2. Seek to position 0  3. Cancel pending seeks
    let s := { s with flowPendingSeekPosition := none }
    -- 4. Emit STOPPED (stopped = loaded but at 0, not playing)
    let (s, stoppedEvs) := emitState s AudioProModule.STATE_STOPPED 0 dur
    -- 5. Emit TRACK_ENDED for JS
    let endedEv := emitNotice s AudioProModule.EVENT_TYPE_TRACK_ENDED dur dur
    (s, stoppedEvs ++ [endedEv], [EngineCmd.pause, EngineCmd.seekTo 0])
  | .idle =>
    let s := stopProgressTimer s
    let (s, evs) := emitState s AudioProModule.STATE_STOPPED 0 0
    (s, evs, [])

/-- `onPositionDiscontinuity`: only seek-class reasons act; the pending seek
position (if any) wins over the engine-reported new position, decides
`USER` vs `SYSTEM` attribution, and is cleared unconditionally; a
`USER`-triggered seek restarts the progress timer. -/
def onPositionDiscontinuity (s : ControllerState) (engineDuration : Int)
    (newPositionMs : Int) (reason : Int) : ControllerState × List Emitted :=
  if reason = DISCONTINUITY_REASON_SEEK ∨ reason = DISCONTINUITY_REASON_SEEK_ADJUSTMENT then
    let dur := engineDuration
    let triggeredBy :=
      if s.flowPendingSeekPosition.isSome then AudioProModule.TRIGGER_SOURCE_USER
      else AudioProModule.TRIGGER_SOURCE_SYSTEM
    -- Determine position for user-initiated seeks
    let pos := s.flowPendingSeekPosition.getD newPositionMs
    let s := { s with flowPendingSeekPosition := none }
    let ev := Emitted.seekComplete pos dur triggeredBy s.activeTrack
    let s :=
      if triggeredBy = AudioProModule.TRIGGER_SOURCE_USER then startProgressTimer s else s
    (s, [ev])
  else
    (s, [])

/-- `onPlayerError`: ignored when already in the error state; otherwise
emits `PLAYBACK_ERROR` (code 500) first and then performs
`resetInternal(STATE_ERROR)`. -/
def onPlayerError (s : ControllerState) (message : String) :
    ControllerState × List Emitted × List EngineCmd :=
  -- If we're already in an error state, just log and return
  if s.flowIsInErrorState then
    (s, [], [])
  else
    -- First, emit PLAYBACK_ERROR event with error details
    let errorEv := emitError s message 500
    -- Then clear the player state and emit STATE_CHANGED: ERROR
    let (s, evs, cmds) := resetInternal s AudioProModule.STATE_ERROR
    (s, errorEv :: evs, cmds)

/-- `n` consecutive `onPlayerError` callbacks with the same message,
concatenating everything they emit. -/
def runPlayerErrors (message : String) :
    Nat → ControllerState → ControllerState × List Emitted × List EngineCmd
  | 0, s => (s, [], [])
  | n + 1, s =>
    let (s1, evs1, cmds1) := onPlayerError s message
    let (s2, evs2, cmds2) := runPlayerErrors message n s1
    (s2, evs1 ++ evs2, cmds1 ++ cmds2)

end AudioProController

/-! ## The store's event subscription and end-to-end command pipelines -/

/-- Modelled from the spec: the internal store's event-subscription handler
(`src/internalStore.ts`, which is not among the sources here; only its
getters/setters are visible through `src/utils.ts` and the facade).  Per the
spec, `STATE_CHANGED` writes `state`/`position`/`duration` into the store,
and the `CLEAR` teardown ends with "volume/speed reset to defaults
(1.0/1.0)", so the terminal `IDLE` state resets the store's playback speed
to its default 1.0. -/
def updateFromEvent (store : StoreState) (ev : Emitted) : StoreState :=
  match ev with
  | .stateChanged state position duration _ =>
    let store := { store with playerState := state, position := position, duration := duration }
    if state = AudioProModule.STATE_IDLE then { store with playbackSpeed := 1 } else store
  | _ => store

/-- The full `clear()` pipeline: the TypeScript facade mutates the store and
calls the native module, the Kotlin controller tears down and emits its
final state, and the store applies the emitted events. -/
def clearPipeline (store : StoreState) (k : ControllerState) :
    StoreState × ControllerState × List Emitted × List EngineCmd :=
  let (store1, _calls) := AudioPro.clear store
  let (k1, evs, cmds) := AudioProController.clear k
  let store2 := evs.foldl updateFromEvent store1
  (store2, k1, evs, cmds)

/-- The position/duration payload of a `STATE_CHANGED`, `PROGRESS` or
`TRACK_ENDED` event is non-negative (trivially true for the event types
whose payload is not a sanitized position/duration pair). -/
def Emitted.payloadNonNeg : Emitted → Prop
  | .stateChanged _ position duration _ => 0 ≤ position ∧ 0 ≤ duration
  | .notice _ position duration _ => 0 ≤ position ∧ 0 ≤ duration
  | .seekComplete _ _ _ _ => True
  | .playbackError _ _ _ => True

/-! ## Helper lemmas -/

theorem normalizeVolume_one : normalizeVolume 1 = 1 := by
  norm_num [normalizeVolume]

theorem validateTrack_url_str {tr : AudioProTrack} (h : validateTrack tr = true) :
    ∃ u, tr.url = JSVal.str u := by
  cases hu : tr.url with
  | str u => exact ⟨u, rfl⟩
  | nonString => simp [validateTrack, hu] at h

theorem runPlayerErrors_inError (message : String) (n : Nat) (s : ControllerState)
    (h : s.flowIsInErrorState = true) :
    AudioProController.runPlayerErrors message n s = (s, [], []) := by
  induction n with
  | zero => rfl
  | succ n ih =>
    simp [AudioProController.runPlayerErrors, AudioProController.onPlayerError, h, ih]

/-! ## Claims -/

/-- **C1.** For every call to `emitState`, the emission is suppressed (no
`STATE_CHANGED` event is produced and the last-emitted-state marker is
unchanged) whenever the requested state equals the immediately preceding
emitted state, or the requested state is `PAUSED` and the last emitted state
was `STOPPED`, or the requested state is `STOPPED` and the error flag is
set.  In all other cases exactly one `STATE_CHANGED` event is produced and
the last-emitted-state marker is updated to the requested state. -/
theorem emitState_suppression_exact (s : ControllerState) (state : String)
    (position duration : Int) :
    ((state = s.flowLastEmittedState ∨
      (state = AudioProModule.STATE_PAUSED ∧
        s.flowLastEmittedState = AudioProModule.STATE_STOPPED) ∨
      (state = AudioProModule.STATE_STOPPED ∧ s.flowIsInErrorState = true)) →
      AudioProController.emitState s state position duration = (s, [])) ∧
    (¬ (state = s.flowLastEmittedState ∨
      (state = AudioProModule.STATE_PAUSED ∧
        s.flowLastEmittedState = AudioProModule.STATE_STOPPED) ∨
      (state = AudioProModule.STATE_STOPPED ∧ s.flowIsInErrorState = true)) →
      AudioProController.emitState s state position duration =
        ({ s with flowLastEmittedState := state },
         [Emitted.stateChanged state (if position < 0 then 0 else position)
            (if duration < 0 then 0 else duration) s.activeTrack])) := by
  constructor
  · intro h
    unfold AudioProController.emitState
    split_ifs <;> first | rfl | (exact absurd h (by tauto))
  · intro h
    unfold AudioProController.emitState
    rw [if_neg (fun hc => h (Or.inr (Or.inl hc))),
        if_neg (fun hc => h (Or.inr (Or.inr hc))),
        if_neg (fun hc => h (Or.inl hc))]

theorem emitState_suppression_exact_witness :
    AudioProController.emitState
        { flowLastEmittedState := AudioProModule.STATE_STOPPED } "PAUSED" 3 7 =
      ({ flowLastEmittedState := AudioProModule.STATE_STOPPED }, []) ∧
    AudioProController.emitState { flowLastEmittedState := "PLAYING" } "PAUSED" 3 7 =
      ({ flowLastEmittedState := "PAUSED" },
       [Emitted.stateChanged "PAUSED" 3 7 none]) := by
  constructor
  · exact (emitState_suppression_exact _ "PAUSED" 3 7).1
      (Or.inr (Or.inl (by simp [AudioProModule.STATE_PAUSED, AudioProModule.STATE_STOPPED])))
  · have := (emitState_suppression_exact
      ({ flowLastEmittedState := "PLAYING" } : ControllerState) "PAUSED" 3 7).2
      (by simp [AudioProModule.STATE_PAUSED, AudioProModule.STATE_STOPPED])
    simpa using this

/-- **C2.** For every `ENDED` engine signal, the handler stops the progress
timer, clears the error flag, clears any pending seek, and (after clearing
the last-emitted-state marker) emits exactly one `STOPPED` state change with
position 0 and the last known duration, immediately followed by exactly one
`TRACK_ENDED` notice whose position equals the duration; `STOPPED` precedes
`TRACK_ENDED`. -/
theorem ended_stopped_then_track_ended (s : ControllerState) (e : EngineSnapshot) :
    (AudioProController.onPlaybackStateChanged s e .ended).2.1 =
      [Emitted.stateChanged AudioProModule.STATE_STOPPED 0
         (if e.duration < 0 then 0 else e.duration) s.activeTrack,
       Emitted.notice AudioProModule.EVENT_TYPE_TRACK_ENDED
         (if e.duration < 0 then 0 else e.duration)
         (if e.duration < 0 then 0 else e.duration) s.activeTrack] ∧
    (AudioProController.onPlaybackStateChanged s e .ended).1.progressTimerRunning = false ∧
    (AudioProController.onPlaybackStateChanged s e .ended).1.flowIsInErrorState = false ∧
    (AudioProController.onPlaybackStateChanged s e .ended).1.flowPendingSeekPosition = none ∧
    (AudioProController.onPlaybackStateChanged s e .ended).1.flowLastEmittedState =
      AudioProModule.STATE_STOPPED := by
  simp [AudioProController.onPlaybackStateChanged, AudioProController.emitState,
        AudioProController.emitNotice, AudioProController.stopProgressTimer,
        AudioProModule.STATE_STOPPED, AudioProModule.STATE_PAUSED,
        AudioProModule.EVENT_TYPE_TRACK_ENDED]

/-- **C3.** For every seek-class position-discontinuity signal: with a
pending seek set, the emitted `SEEK_COMPLETE` carries `triggeredBy USER`
and the pending seek's target position (not the raw engine position), and
the progress timer is restarted; with no pending seek, it carries
`triggeredBy SYSTEM` and the raw engine-reported position.  In both cases
the pending-seek slot is cleared; non-seek reasons produce no event. -/
theorem seek_discontinuity_attribution (s : ControllerState)
    (engineDuration newPositionMs reason : Int) :
    ((reason = DISCONTINUITY_REASON_SEEK ∨ reason = DISCONTINUITY_REASON_SEEK_ADJUSTMENT) →
      (∀ target, s.flowPendingSeekPosition = some target →
        AudioProController.onPositionDiscontinuity s engineDuration newPositionMs reason =
          ({ s with flowPendingSeekPosition := none, progressTimerRunning := true },
           [Emitted.seekComplete target engineDuration
              AudioProModule.TRIGGER_SOURCE_USER s.activeTrack])) ∧
      (s.flowPendingSeekPosition = none →
        AudioProController.onPositionDiscontinuity s engineDuration newPositionMs reason =
          ({ s with flowPendingSeekPosition := none },
           [Emitted.seekComplete newPositionMs engineDuration
              AudioProModule.TRIGGER_SOURCE_SYSTEM s.activeTrack]))) ∧
    (¬ (reason = DISCONTINUITY_REASON_SEEK ∨ reason = DISCONTINUITY_REASON_SEEK_ADJUSTMENT) →
      AudioProController.onPositionDiscontinuity s engineDuration newPositionMs reason =
        (s, [])) := by
  constructor
  · intro hr
    constructor
    · intro target ht
      simp [AudioProController.onPositionDiscontinuity, hr, ht,
            AudioProController.startProgressTimer, AudioProController.stopProgressTimer,
            AudioProModule.TRIGGER_SOURCE_USER, AudioProModule.TRIGGER_SOURCE_SYSTEM]
    · intro ht
      simp [AudioProController.onPositionDiscontinuity, hr, ht,
            AudioProModule.TRIGGER_SOURCE_USER, AudioProModule.TRIGGER_SOURCE_SYSTEM]
  · intro hr
    simp [AudioProController.onPositionDiscontinuity, hr]

theorem seek_discontinuity_attribution_witness :
    AudioProController.onPositionDiscontinuity
        { flowPendingSeekPosition := some 5000 } 60000 4990 DISCONTINUITY_REASON_SEEK =
      ({ flowPendingSeekPosition := none, progressTimerRunning := true },
       [Emitted.seekComplete 5000 60000 AudioProModule.TRIGGER_SOURCE_USER none]) ∧
    AudioProController.onPositionDiscontinuity {} 60000 4990 DISCONTINUITY_REASON_SEEK =
      ({ flowPendingSeekPosition := none },
       [Emitted.seekComplete 4990 60000 AudioProModule.TRIGGER_SOURCE_SYSTEM none]) ∧
    AudioProController.onPositionDiscontinuity
        { flowPendingSeekPosition := some 5000 } 60000 4990 0 =
      ({ flowPendingSeekPosition := some 5000 }, []) := by
  refine ⟨?_, ?_, ?_⟩
  · exact ((seek_discontinuity_attribution _ 60000 4990 _).1 (Or.inl rfl)).1 5000 rfl
  · exact ((seek_discontinuity_attribution _ 60000 4990 _).1 (Or.inl rfl)).2 rfl
  · exact (seek_discontinuity_attribution _ 60000 4990 0).2 (by
      simp [DISCONTINUITY_REASON_SEEK, DISCONTINUITY_REASON_SEEK_ADJUSTMENT])

/-- **C4.** For every sequence of `n ≥ 1` consecutive `PLAYER_ERROR`
callbacks starting with the error flag clear, exactly one `PLAYBACK_ERROR`
notice and exactly one `STATE_CHANGED: ERROR` emission are produced, the
`PLAYBACK_ERROR` first; every callback after the first is ignored because
the controller is already in the error state, and the first performs full
teardown (progress timer stopped, active track and pending seek cleared,
speed and volume reset to 1.0, listener detached, engine released). -/
theorem repeated_player_error_idempotent (s : ControllerState) (message : String)
    (n : Nat) (hs : s.flowIsInErrorState = false) (hn : 1 ≤ n) :
    (AudioProController.runPlayerErrors message n s).2.1 =
      [Emitted.playbackError message 500 s.activeTrack,
       Emitted.stateChanged AudioProModule.STATE_ERROR 0 0 none] ∧
    (AudioProController.runPlayerErrors message n s).1 =
      { activeTrack := none, activeVolume := 1, activePlaybackSpeed := 1,
        flowIsInErrorState := true,
        flowLastEmittedState := AudioProModule.STATE_ERROR,
        flowPendingSeekPosition := none, progressTimerRunning := false,
        listenerAttached := false, engineReleased := true } := by
  rcases n with _ | m
  · exact absurd hn (by omega)
  · have hstep : AudioProController.onPlayerError s message =
        ({ activeTrack := none, activeVolume := 1, activePlaybackSpeed := 1,
           flowIsInErrorState := true,
           flowLastEmittedState := AudioProModule.STATE_ERROR,
           flowPendingSeekPosition := none, progressTimerRunning := false,
           listenerAttached := false, engineReleased := true },
         [Emitted.playbackError message 500 s.activeTrack,
          Emitted.stateChanged AudioProModule.STATE_ERROR 0 0 none],
         [EngineCmd.stop, EngineCmd.release, EngineCmd.destroyService]) := by
      simp [AudioProController.onPlayerError, AudioProController.resetInternal,
            AudioProController.emitState, AudioProController.emitError,
            AudioProController.stopProgressTimer, hs,
            AudioProModule.STATE_ERROR, AudioProModule.STATE_PAUSED,
            AudioProModule.STATE_STOPPED]
    have hrest := runPlayerErrors_inError message m
      { activeTrack := none, activeVolume := 1, activePlaybackSpeed := 1,
        flowIsInErrorState := true,
        flowLastEmittedState := AudioProModule.STATE_ERROR,
        flowPendingSeekPosition := none, progressTimerRunning := false,
        listenerAttached := false, engineReleased := true } rfl
    simp [AudioProController.runPlayerErrors, hstep, hrest]

theorem repeated_player_error_idempotent_witness :
    (AudioProController.runPlayerErrors "Unknown error" 3 {}).2.1 =
      [Emitted.playbackError "Unknown error" 500 none,
       Emitted.stateChanged AudioProModule.STATE_ERROR 0 0 none] :=
  (repeated_player_error_idempotent {} "Unknown error" 3 rfl (by omega)).1

/-- **C5.** After `clear()` from any prior state: the emitted final state is
`IDLE` with position 0 and duration 0, and through the store's getters the
state is `IDLE`, the active track is `null`, position and duration are 0,
volume is 1.0 and playback speed is 1.0; the controller's own track, volume
and speed are likewise reset. -/
theorem clear_resets_player (store : StoreState) (k : ControllerState) :
    (clearPipeline store k).2.2.1 =
      [Emitted.stateChanged AudioProModule.STATE_IDLE 0 0 none] ∧
    AudioPro.getState (clearPipeline store k).1 = AudioProModule.STATE_IDLE ∧
    AudioPro.getPlayingTrack (clearPipeline store k).1 = none ∧
    (clearPipeline store k).1.position = 0 ∧
    (clearPipeline store k).1.duration = 0 ∧
    AudioPro.getVolume (clearPipeline store k).1 = 1 ∧
    AudioPro.getPlaybackSpeed (clearPipeline store k).1 = 1 ∧
    (clearPipeline store k).2.1.activeTrack = none ∧
    (clearPipeline store k).2.1.activeVolume = 1 ∧
    (clearPipeline store k).2.1.activePlaybackSpeed = 1 := by
  simp only [clearPipeline, AudioPro.clear, AudioProController.clear,
    AudioProController.resetInternal, AudioProController.emitState,
    AudioProController.stopProgressTimer, AudioPro.getState,
    AudioPro.getPlayingTrack, AudioPro.getVolume, AudioPro.getPlaybackSpeed,
    normalizeVolume_one, AudioProModule.STATE_IDLE, AudioProModule.STATE_PAUSED,
    AudioProModule.STATE_STOPPED, AudioProModule.STATE_ERROR]
  split_ifs <;>
    simp_all [updateFromEvent, AudioProModule.STATE_IDLE]

/-- **C6.** After `stop()` with an active track: the emitted state is
`STOPPED` with position 0 and the last known duration, the active track is
retained, the pending seek is cleared, the progress timer is stopped, and
the engine is not released (no release command, listener stays attached) —
in contrast to `clear()`, which does release it. -/
theorem stop_retains_track_no_release (s : ControllerState) (engineDuration : Int)
    (t : KTrack) (h : s.activeTrack = some t) :
    (AudioProController.stop s engineDuration).2.1 =
      [Emitted.stateChanged AudioProModule.STATE_STOPPED 0
         (if engineDuration > 0 then engineDuration else 0) (some t)] ∧
    (AudioProController.stop s engineDuration).1.activeTrack = some t ∧
    (AudioProController.stop s engineDuration).1.flowPendingSeekPosition = none ∧
    (AudioProController.stop s engineDuration).1.progressTimerRunning = false ∧
    (AudioProController.stop s engineDuration).1.engineReleased = s.engineReleased ∧
    (AudioProController.stop s engineDuration).1.listenerAttached = s.listenerAttached ∧
    EngineCmd.release ∉ (AudioProController.stop s engineDuration).2.2 ∧
    (AudioProController.clear s).1.engineReleased = true ∧
    EngineCmd.release ∈ (AudioProController.clear s).2.2 := by
  have hd : ¬ ((if engineDuration > 0 then engineDuration else 0) < 0) := by
    split <;> omega
  simp [AudioProController.stop, AudioProController.clear,
        AudioProController.resetInternal, AudioProController.emitState,
        AudioProController.stopProgressTimer, h, hd,
        AudioProModule.STATE_STOPPED, AudioProModule.STATE_PAUSED,
        AudioProModule.STATE_ERROR, AudioProModule.STATE_IDLE]

theorem stop_retains_track_no_release_witness :
    (AudioProController.stop
        { activeTrack := some { url := some "https://example.com/audio.mp3" },
          progressTimerRunning := true } 60000).2.1 =
      [Emitted.stateChanged AudioProModule.STATE_STOPPED 0 60000
         (some { url := some "https://example.com/audio.mp3" })] ∧
    (AudioProController.stop
        { activeTrack := some { url := some "https://example.com/audio.mp3" },
          progressTimerRunning := true } 60000).1.activeTrack =
      some { url := some "https://example.com/audio.mp3" } := by
  have hw := stop_retains_track_no_release
    { activeTrack := some { url := some "https://example.com/audio.mp3" },
      progressTimerRunning := true } 60000
    { url := some "https://example.com/audio.mp3" } rfl
  exact ⟨by rw [hw.1]; norm_num, hw.2.1⟩

/-- **C7.** For every track failing validation, `play(track, options)` makes
no engine call, performs no store mutation, and emits exactly one
`PLAYBACK_ERROR` event with a descriptive message and sentinel error code
`-1`. -/
theorem invalid_track_play_noop (store : StoreState) (track : AudioProTrack)
    (options : AudioProPlayOptions) (h : validateTrack track = false) :
    AudioPro.play store track options =
      (store,
       [Emitted.playbackError
          "[react-native-audio-pro]: Invalid track provided to play()." (-1) none],
       []) := by
  simp [AudioPro.play, h]

theorem invalid_track_play_noop_witness :
    AudioPro.play {}
        { id := JSVal.str "", url := JSVal.str "http://a.mp3",
          title := JSVal.str "Title", artwork := JSVal.str "http://b.jpg" } {} =
      ({},
       [Emitted.playbackError
          "[react-native-audio-pro]: Invalid track provided to play()." (-1) none],
       []) :=
  invalid_track_play_noop {} _ {} (by decide)

/-- **C8.** For every successful `play()` (validated track), the controller
emits `LOADING` first, regardless of the prior state; when `autoPlay` is
false the emitted events are exactly `LOADING` then `PAUSED`, with no
intermediate `PLAYING` emission — and the later engine load confirmation
(`READY` while not playing) emits nothing further, being suppressed as a
duplicate `PAUSED`. -/
theorem play_loading_first_then_paused (s : ControllerState) (tr : AudioProTrack)
    (options : NativeOptions) (hv : validateTrack tr = true) :
    ((AudioProController.play s (toKTrack tr) options).2.1).head? =
      some (Emitted.stateChanged AudioProModule.STATE_LOADING 0 0 (some (toKTrack tr))) ∧
    (options.autoPlay = some false →
      (AudioProController.play s (toKTrack tr) options).2.1 =
        [Emitted.stateChanged AudioProModule.STATE_LOADING 0 0 (some (toKTrack tr)),
         Emitted.stateChanged AudioProModule.STATE_PAUSED 0 0 (some (toKTrack tr))]) ∧
    (options.autoPlay = some false → ∀ e : EngineSnapshot, e.isPlaying = false →
      (AudioProController.onPlaybackStateChanged
          (AudioProController.play s (toKTrack tr) options).1 e .ready).2.1 = []) := by
  obtain ⟨u, hu⟩ := validateTrack_url_str hv
  have hku : (toKTrack tr).url = some u := by simp [toKTrack, hu]
  rcases options with ⟨autoPlay, startTimeMs, playbackSpeed, volume⟩
  refine ⟨?_, ?_, ?_⟩
  · rcases autoPlay with _ | b
    · rcases startTimeMs with _ | st <;>
        simp [AudioProController.play, AudioProController.extractPlaybackOptions,
              AudioProController.prepareForNewPlayback,
              AudioProController.stopProgressTimer, AudioProController.emitState,
              hku, AudioProModule.STATE_LOADING, AudioProModule.STATE_PAUSED,
              AudioProModule.STATE_STOPPED]
    · rcases b with _ | _ <;> rcases startTimeMs with _ | st <;>
        simp [AudioProController.play, AudioProController.extractPlaybackOptions,
              AudioProController.prepareForNewPlayback,
              AudioProController.stopProgressTimer, AudioProController.emitState,
              hku, AudioProModule.STATE_LOADING, AudioProModule.STATE_PAUSED,
              AudioProModule.STATE_STOPPED]
  · intro hfalse
    subst hfalse
    simp [AudioProController.play, AudioProController.extractPlaybackOptions,
          AudioProController.prepareForNewPlayback,
          AudioProController.stopProgressTimer, AudioProController.emitState,
          hku, AudioProModule.STATE_LOADING, AudioProModule.STATE_PAUSED,
          AudioProModule.STATE_STOPPED]
  · intro hfalse e he
    subst hfalse
    simp [AudioProController.play, AudioProController.extractPlaybackOptions,
          AudioProController.prepareForNewPlayback,
          AudioProController.onPlaybackStateChanged,
          AudioProController.stopProgressTimer, AudioProController.emitState,
          hku, he, AudioProModule.STATE_LOADING, AudioProModule.STATE_PAUSED,
          AudioProModule.STATE_STOPPED, AudioProModule.STATE_PLAYING]

theorem play_loading_first_then_paused_witness :
    ((AudioProController.play
        { flowLastEmittedState := AudioProModule.STATE_PLAYING }
        (toKTrack { id := JSVal.str "1", url := JSVal.str "http://a.mp3",
                    title := JSVal.str "Title", artwork := JSVal.str "http://b.jpg" })
        { autoPlay := some false }).2.1) =
      [Emitted.stateChanged AudioProModule.STATE_LOADING 0 0
         (some (toKTrack { id := JSVal.str "1", url := JSVal.str "http://a.mp3",
                           title := JSVal.str "Title", artwork := JSVal.str "http://b.jpg" })),
       Emitted.stateChanged AudioProModule.STATE_PAUSED 0 0
         (some (toKTrack { id := JSVal.str "1", url := JSVal.str "http://a.mp3",
                           title := JSVal.str "Title", artwork := JSVal.str "http://b.jpg" }))] :=
  (play_loading_first_then_paused
    { flowLastEmittedState := AudioProModule.STATE_PLAYING }
    { id := JSVal.str "1", url := JSVal.str "http://a.mp3",
      title := JSVal.str "Title", artwork := JSVal.str "http://b.jpg" }
    { autoPlay := some false } (by decide)).2.1 rfl

/-- **C9.** `normalizeVolume` maps every input within 0.001 of 0 to exactly
0 and every input within 0.005 of 1 to exactly 1, clamps all outputs to
`[0, 1]` and rounds to at most 2 decimal places; in particular
`normalizeVolume 0.0005 = 0`, `normalizeVolume 0.998 = 1`,
`normalizeVolume 0.55555 = 0.56`, `normalizeVolume 1.5 = 1` and
`normalizeVolume (-0.5) = 0`. -/
theorem normalizeVolume_spec :
    (∀ v : Rat, |v| < 0.001 → normalizeVolume v = 0) ∧
    (∀ v : Rat, |v - 1| < 0.005 → normalizeVolume v = 1) ∧
    (∀ v : Rat, 0 ≤ normalizeVolume v ∧ normalizeVolume v ≤ 1 ∧
       ∃ k : ℤ, normalizeVolume v = (k : Rat) / 100) ∧
    normalizeVolume 0.0005 = 0 ∧ normalizeVolume 0.998 = 1 ∧
    normalizeVolume 0.55555 = 0.56 ∧ normalizeVolume 1.5 = 1 ∧
    normalizeVolume (-0.5) = 0 := by
  refine ⟨?_, ?_, ?_, ?_, ?_, ?_, ?_, ?_⟩
  · intro v h
    unfold normalizeVolume
    rw [if_pos]
    simp [h]
  · intro v h
    rw [abs_lt] at h
    unfold normalizeVolume
    split_ifs with hc1 hc2
    · exfalso
      simp only [Bool.or_eq_true, decide_eq_true_eq] at hc1
      rcases hc1 with rfl | habs
      · norm_num at h
      · rw [abs_lt] at habs
        have : (0.001 : ℚ) < 0.995 := by norm_num
        obtain ⟨h1, h2⟩ := h
        obtain ⟨h3, h4⟩ := habs
        linarith
    · rfl
    · simp only [Bool.and_eq_true, decide_eq_true_eq, not_and_or, not_lt, not_le] at hc2
      obtain ⟨h1, h2⟩ := h
      rcases hc2 with hle | hgt
      · linarith
      · have hmin : min 1 v = 1 := min_eq_left (le_of_lt hgt)
        rw [hmin]
        have hmax : max 0 (1 : ℚ) = 1 := by norm_num
        rw [hmax]
        norm_num [toFixed2]
  · intro v
    unfold normalizeVolume
    split_ifs with hc1 hc2
    · exact ⟨le_refl 0, by norm_num, 0, by norm_num⟩
    · exact ⟨by norm_num, le_refl 1, 100, by norm_num⟩
    · have hc0 : (0 : ℚ) ≤ max 0 (min 1 v) := le_max_left 0 _
      have hcle : max 0 (min 1 v) ≤ 1 := max_le (by norm_num) (min_le_left 1 v)
      have hfl0 : 0 ≤ ⌊(max 0 (min 1 v)) * 100 + 1 / 2⌋ := by
        apply Int.floor_nonneg.mpr
        nlinarith
      have hfl1 : ⌊(max 0 (min 1 v)) * 100 + 1 / 2⌋ ≤ 100 := by
        have hlt : ((max 0 (min 1 v)) * 100 + 1 / 2 : ℚ) < ((101 : ℤ) : ℚ) := by
          push_cast
          nlinarith
        have := Int.floor_lt.mpr hlt
        omega
      refine ⟨?_, ?_, ⟨⌊(max 0 (min 1 v)) * 100 + 1 / 2⌋, rfl⟩⟩
      · unfold toFixed2
        apply div_nonneg _ (by norm_num)
        exact_mod_cast hfl0
      · unfold toFixed2
        rw [div_le_one (by norm_num)]
        exact_mod_cast hfl1
  · norm_num [normalizeVolume, toFixed2, abs_of_nonneg, abs_of_nonpos]
  · norm_num [normalizeVolume, toFixed2, abs_of_nonneg, abs_of_nonpos]
  · norm_num [normalizeVolume, toFixed2, abs_of_nonneg, abs_of_nonpos]
  · norm_num [normalizeVolume, toFixed2, abs_of_nonneg, abs_of_nonpos]
  · norm_num [normalizeVolume, toFixed2, abs_of_nonneg, abs_of_nonpos]

theorem normalizeVolume_spec_witness :
    normalizeVolume (1 / 2000) = 0 ∧ normalizeVolume (1998 / 2000) = 1 := by
  constructor
  · exact normalizeVolume_spec.1 (1 / 2000) (by rw [abs_of_nonneg] <;> norm_num)
  · exact normalizeVolume_spec.2.1 (1998 / 2000) (by rw [abs_lt]; constructor <;> norm_num)

/-- **C10.** Every emitted `STATE_CHANGED` event and every
position/duration notice built by `emitNotice` (`PROGRESS`, `TRACK_ENDED`)
carries a non-negative position and duration; a negative engine-reported
value is coerced to 0 before the payload is built (so the emission is the
same as with 0). -/
theorem emitted_payloads_nonneg :
    (∀ (s : ControllerState) (st : String) (p d : Int),
       ∀ ev ∈ (AudioProController.emitState s st p d).2, ev.payloadNonNeg) ∧
    (∀ (s : ControllerState) (ty : String) (p d : Int),
       (AudioProController.emitNotice s ty p d).payloadNonNeg) ∧
    (∀ (s : ControllerState) (st : String) (p d : Int), p < 0 →
       AudioProController.emitState s st p d = AudioProController.emitState s st 0 d) ∧
    (∀ (s : ControllerState) (st : String) (p d : Int), d < 0 →
       AudioProController.emitState s st p d = AudioProController.emitState s st p 0) ∧
    (∀ (s : ControllerState) (ty : String) (p d : Int), p < 0 →
       AudioProController.emitNotice s ty p d = AudioProController.emitNotice s ty 0 d) ∧
    (∀ (s : ControllerState) (ty : String) (p d : Int), d < 0 →
       AudioProController.emitNotice s ty p d = AudioProController.emitNotice s ty p 0) := by
  refine ⟨?_, ?_, ?_, ?_, ?_, ?_⟩
  · intro s st p d ev hev
    unfold AudioProController.emitState at hev
    split_ifs at hev <;>
      first
      | exact absurd hev (List.not_mem_nil ev)
      | (rw [List.mem_singleton] at hev
         subst hev
         exact ⟨by omega, by omega⟩)
  · intro s ty p d
    unfold AudioProController.emitNotice
    constructor <;> split <;> omega
  · intro s st p d h
    simp [AudioProController.emitState, h]
  · intro s st p d h
    simp [AudioProController.emitState, h]
  · intro s ty p d h
    simp [AudioProController.emitNotice, h]
  · intro s ty p d h
    simp [AudioProController.emitNotice, h]

theorem emitted_payloads_nonneg_witness :
    Emitted.payloadNonNeg
      (Emitted.stateChanged AudioProModule.STATE_PLAYING 0 120000 none) ∧
    AudioProController.emitNotice {} AudioProModule.EVENT_TYPE_PROGRESS (-5) 120000 =
      AudioProController.emitNotice {} AudioProModule.EVENT_TYPE_PROGRESS 0 120000 := by
  constructor
  · apply emitted_payloads_nonneg.1 {} AudioProModule.STATE_PLAYING 0 120000
    decide
  · exact emitted_payloads_nonneg.2.2.2.2.1 {} AudioProModule.EVENT_TYPE_PROGRESS (-5) 120000
      (by norm_num)
